import Mathlib

/-!
Shallow embedding of `promiseTuple` from `src/index.ts` of the
`promise-tuple` repository, together with theorems settling the frozen
claims about it.

The source function is:

```
export async function promiseTuple<R = unknown, E = unknown>(
  promise: Promise<R>,
  successCallback?: () => void,
  failureCallback?: () => void,
): Promise<[E, undefined] | [undefined, R]> {
  return promise
    .then(
      (result) => (successCallback?.(), [undefined, result] as [undefined, R]),
    )
    .catch(
      (error) => (failureCallback?.(), [error, undefined] as [E, undefined]),
    );
}
```

Modelling decisions:
- JavaScript runtime values are modelled by the inductive `JSVal`; the
  TypeScript type parameters `R` and `E` are erased at runtime, and the
  claims are about runtime behaviour (in particular about the runtime value
  `undefined`), so the embedding is monomorphic over `JSVal`.  Reference
  values (objects, `Error` instances, ...) are modelled by `JSVal.ref id`:
  two references are the same object instance exactly when their ids are
  equal, which lets identity-preservation claims be stated as equalities.
- The input promise is assumed to settle (every claim speaks of settled
  outcomes), so it is modelled by its settled outcome `SettledPromise`.
- A `() => void` callback either returns normally or throws a value;
  an optional callback parameter is `Option Callback`, `none` meaning the
  argument was omitted.
- The JavaScript operations `p.then(f)` and `p.catch(g)` on a settled promise are
  modelled by `thenP` and `catchP`.  Each handler additionally reports how
  many times it invoked its optional callback, so that the claims about
  callback invocation counts can be stated.
-/

/-- A JavaScript runtime value, as far as the claims need to distinguish
values: `undefined`, `null`, booleans, numbers (integers suffice for the
claims), strings, and reference values identified by an id. -/
inductive JSVal where
  | undef
  | null
  | bool (b : Bool)
  | num (n : Int)
  | str (s : String)
  | ref (id : Nat)
  deriving DecidableEq

/-- The settled outcome of a JavaScript promise: fulfilled with a value or
rejected with a reason. -/
inductive SettledPromise (α : Type) where
  | fulfilled (value : α)
  | rejected (reason : JSVal)
  deriving DecidableEq

/-- Whether a settled promise is rejected. -/
def SettledPromise.isRejected : SettledPromise α → Bool
  | .fulfilled _ => false
  | .rejected _ => true

/-- Whether a settled promise is fulfilled. -/
def SettledPromise.isFulfilled : SettledPromise α → Bool
  | .fulfilled _ => true
  | .rejected _ => false

/-- Behaviour of a `() => void` callback when invoked: it either returns
normally or throws a value. -/
inductive Callback where
  | ret
  | throws (t : JSVal)
  deriving DecidableEq

/-- Whether an optional callback, when invoked, does not throw (an omitted
callback vacuously does not throw). -/
def doesNotThrow : Option Callback → Bool
  | some (.throws _) => false
  | _ => true

/-- How many times each optional callback argument of `promiseTuple` was
invoked during one call. -/
structure CallCounts where
  successCalls : Nat
  failureCalls : Nat
  deriving DecidableEq

/-- JavaScript `p.then(onFulfilled)` on a settled promise `p`: the handler
runs on the fulfilment value and its own settlement is the result; a
rejection passes through untouched.  The handler also reports a callback
invocation count, which is `0` when the handler does not run. -/
def thenP (p : SettledPromise α) (onFulfilled : α → SettledPromise β × Nat) :
    SettledPromise β × Nat :=
  match p with
  | .fulfilled v => onFulfilled v
  | .rejected r => (.rejected r, 0)

/-- JavaScript `p.catch(onRejected)` on a settled promise `p`: the handler
runs on the rejection reason and its own settlement is the result; a
fulfilment passes through untouched.  The handler also reports a callback
invocation count, which is `0` when the handler does not run. -/
def catchP (p : SettledPromise α) (onRejected : JSVal → SettledPromise α × Nat) :
    SettledPromise α × Nat :=
  match p with
  | .fulfilled v => (.fulfilled v, 0)
  | .rejected r => onRejected r

/-- The `.then` handler of `promiseTuple`:
`(result) => (successCallback?.(), [undefined, result] as [undefined, R])`.
The optional chaining call `successCallback?.()` is a no-op when the
callback is omitted; when present the callback is invoked (counted once),
and if it throws, the comma expression — hence the handler — throws that
value; otherwise the handler returns the tuple `[undefined, result]`. -/
def onFulfilledHandler (successCallback : Option Callback) (result : JSVal) :
    SettledPromise (JSVal × JSVal) × Nat :=
  match successCallback with
  | none => (.fulfilled (JSVal.undef, result), 0)
  | some .ret => (.fulfilled (JSVal.undef, result), 1)
  | some (.throws t) => (.rejected t, 1)

/-- The `.catch` handler of `promiseTuple`:
`(error) => (failureCallback?.(), [error, undefined] as [E, undefined])`.
Same invocation rules as the `.then` handler; on normal return it yields
the tuple `[error, undefined]`. -/
def onRejectedHandler (failureCallback : Option Callback) (error : JSVal) :
    SettledPromise (JSVal × JSVal) × Nat :=
  match failureCallback with
  | none => (.fulfilled (error, JSVal.undef), 0)
  | some .ret => (.fulfilled (error, JSVal.undef), 1)
  | some (.throws t) => (.rejected t, 1)

/-- `promiseTuple` from `src/index.ts`:
`promise.then(onFulfilledHandler).catch(onRejectedHandler)`, returned by an
`async` function (which adopts the settlement of the chain unchanged).  Returns
the settled outcome of the returned promise together with the callback
invocation counts. -/
def promiseTuple (promise : SettledPromise JSVal)
    (successCallback failureCallback : Option Callback) :
    SettledPromise (JSVal × JSVal) × CallCounts :=
  let afterThen := thenP promise (onFulfilledHandler successCallback)
  let afterCatch := catchP afterThen.1 (onRejectedHandler failureCallback)
  (afterCatch.1, ⟨afterThen.2, afterCatch.2⟩)

/-- Whether a `JSVal` is one of the falsy values named by the claims
(`0`, empty string, `false`, `null`) or the absent marker `undefined`. -/
def isFalsyOrAbsent : JSVal → Bool
  | .num 0 => true
  | .str "" => true
  | .bool false => true
  | .null => true
  | .undef => true
  | _ => false

/-- C1: with no callbacks provided, a promise that settles successfully with
value `v` yields the tuple `[undefined, v]`, and a promise that settles with
failure `e` yields the tuple `[e, undefined]`; in both cases the returned
future resolves with that tuple. -/
theorem promiseTuple_no_callbacks_tuple (v e : JSVal) :
    (promiseTuple (.fulfilled v) none none).1 = .fulfilled (JSVal.undef, v) ∧
    (promiseTuple (.rejected e) none none).1 = .fulfilled (e, JSVal.undef) :=
  ⟨rfl, rfl⟩

/-- C2: whenever the provided callbacks do not throw (omitted callbacks
vacuously do not throw), the future returned by `promiseTuple` never fails:
for every settled input promise it settles successfully with a two-element
tuple, so the failure of the input operation is never re-raised through the
failure channel of the returned future. -/
theorem promiseTuple_never_fails (p : SettledPromise JSVal)
    (sc fc : Option Callback)
    (hs : doesNotThrow sc = true) (hf : doesNotThrow fc = true) :
    ((promiseTuple p sc fc).1).isRejected = false := by
  cases p with
  | fulfilled v =>
      cases sc with
      | none => rfl
      | some c =>
          cases c with
          | ret => rfl
          | throws t => simp [doesNotThrow] at hs
  | rejected e =>
      cases fc with
      | none => rfl
      | some c =>
          cases c with
          | ret => rfl
          | throws t => simp [doesNotThrow] at hf

/-- Witness for C2 at a concrete input: both callbacks provided and
non-throwing, input fulfilled with a string. -/
theorem promiseTuple_never_fails_witness :
    doesNotThrow (some .ret) = true ∧
    ((promiseTuple (.fulfilled (.str "success")) (some .ret) (some .ret)).1).isRejected
      = false :=
  ⟨by decide,
    promiseTuple_never_fails (.fulfilled (.str "success")) (some .ret) (some .ret)
      (by decide) (by decide)⟩

/-- C3: with callbacks absent or non-throwing, presence of a slot is decided
by which branch executed: on success the tuple is exactly
`(undefined, v)` — the error slot is the absent marker and the value slot
holds the settled value unchanged, even when `v` is itself the marker or a
falsy value — and on failure the tuple is exactly `(e, undefined)`; the two
slots are never both populated. -/
theorem promiseTuple_slot_exclusivity (p : SettledPromise JSVal)
    (sc fc : Option Callback)
    (hs : doesNotThrow sc = true) (hf : doesNotThrow fc = true) :
    (∀ v, p = .fulfilled v →
      (promiseTuple p sc fc).1 = .fulfilled (JSVal.undef, v)) ∧
    (∀ e, p = .rejected e →
      (promiseTuple p sc fc).1 = .fulfilled (e, JSVal.undef)) ∧
    (∀ t, (promiseTuple p sc fc).1 = .fulfilled t →
      ¬(t.1 ≠ JSVal.undef ∧ t.2 ≠ JSVal.undef)) := by
  cases p with
  | fulfilled v =>
      cases sc with
      | none =>
          refine ⟨?_, ?_, ?_⟩
          · rintro v' h; cases h; rfl
          · rintro e h; cases h
          · rintro t h ⟨h1, h2⟩
            cases h; exact h1 rfl
      | some c =>
          cases c with
          | ret =>
              refine ⟨?_, ?_, ?_⟩
              · rintro v' h; cases h; rfl
              · rintro e h; cases h
              · rintro t h ⟨h1, h2⟩
                cases h; exact h1 rfl
          | throws t => simp [doesNotThrow] at hs
  | rejected e =>
      cases fc with
      | none =>
          refine ⟨?_, ?_, ?_⟩
          · rintro v' h; cases h
          · rintro e' h; cases h; rfl
          · rintro t h ⟨h1, h2⟩
            cases h; exact h2 rfl
      | some c =>
          cases c with
          | ret =>
              refine ⟨?_, ?_, ?_⟩
              · rintro v' h; cases h
              · rintro e' h; cases h; rfl
              · rintro t h ⟨h1, h2⟩
                cases h; exact h2 rfl
          | throws t => simp [doesNotThrow] at hf

/-- Witness for C3 at a concrete input: a rejected promise with both
callbacks provided and non-throwing. -/
theorem promiseTuple_slot_exclusivity_witness :
    doesNotThrow (some .ret) = true ∧
    ((∀ v, (SettledPromise.rejected (JSVal.str "err") : SettledPromise JSVal)
        = .fulfilled v →
      (promiseTuple (.rejected (.str "err")) (some .ret) (some .ret)).1
        = .fulfilled (JSVal.undef, v)) ∧
    (∀ e, (SettledPromise.rejected (JSVal.str "err") : SettledPromise JSVal)
        = .rejected e →
      (promiseTuple (.rejected (.str "err")) (some .ret) (some .ret)).1
        = .fulfilled (e, JSVal.undef)) ∧
    (∀ t, (promiseTuple (.rejected (.str "err")) (some .ret) (some .ret)).1
        = .fulfilled t →
      ¬(t.1 ≠ JSVal.undef ∧ t.2 ≠ JSVal.undef))) :=
  ⟨by decide,
    promiseTuple_slot_exclusivity (.rejected (.str "err")) (some .ret) (some .ret)
      (by decide) (by decide)⟩

/-- C4 counterexample: the input promise fulfils with a value and the
provided `onSuccess` callback throws, yet the future returned by
`promiseTuple` does not fail — the thrown value is captured by the `.catch`
stage and the future resolves to the tuple `[thrown, undefined]`, refuting
the claim that the exception propagates through the failure channel. -/
theorem promiseTuple_onSuccess_throw_not_propagated :
    ((promiseTuple (.fulfilled (.str "s")) (some (.throws (.str "boom"))) none).1).isRejected
      = false ∧
    (promiseTuple (.fulfilled (.str "s")) (some (.throws (.str "boom"))) none).1
      = .fulfilled (.str "boom", JSVal.undef) := by
  decide

/-- C4 as amended: when the input promise fulfils and the provided
`onSuccess` callback throws `t`, the exception does not propagate through
the failure channel of the returned future; instead it is captured by the
`.catch` stage and the future resolves to the tuple `[t, undefined]`
(provided the failure callback does not itself throw). -/
theorem promiseTuple_onSuccess_throw_resolves (v t : JSVal) (fc : Option Callback)
    (hf : doesNotThrow fc = true) :
    (promiseTuple (.fulfilled v) (some (.throws t)) fc).1
      = .fulfilled (t, JSVal.undef) := by
  cases fc with
  | none => rfl
  | some c =>
      cases c with
      | ret => rfl
      | throws t2 => simp [doesNotThrow] at hf

/-- Witness for the amended C4 at a concrete input: fulfilled promise,
throwing `onSuccess`, no failure callback. -/
theorem promiseTuple_onSuccess_throw_resolves_witness :
    doesNotThrow (none : Option Callback) = true ∧
    (promiseTuple (.fulfilled (.num 1)) (some (.throws (.str "boom"))) none).1
      = .fulfilled (.str "boom", JSVal.undef) :=
  ⟨by decide,
    promiseTuple_onSuccess_throw_resolves (.num 1) (.str "boom") none (by decide)⟩

/-- C5: when the input promise settles with failure `e` and the provided
`onFailure` callback throws `t`, the future returned by `promiseTuple`
fails with `t` instead of resolving with the tuple `(e, Absent)`; this
holds for every success callback argument. -/
theorem promiseTuple_onFailure_throw_propagates (e t : JSVal) (sc : Option Callback) :
    (promiseTuple (.rejected e) sc (some (.throws t))).1 = .rejected t :=
  rfl

/-- C6 counterexample: the input promise fulfils, the provided `onSuccess`
callback throws, and a failure callback is provided; then the failure
callback is invoked even though the operation succeeded (both callbacks run
once), refuting the claim that `onFailure` is invoked only if the operation
failed and that the non-matching callback is never invoked. -/
theorem promiseTuple_failureCallback_fires_on_success :
    (SettledPromise.fulfilled (JSVal.num 1)).isFulfilled = true ∧
    (promiseTuple (.fulfilled (.num 1)) (some (.throws (.str "boom"))) (some .ret)).2
      = ⟨1, 1⟩ := by
  decide

/-- C6 as amended: provided the success callback does not throw, `onSuccess`
is invoked exactly once if and only if the operation succeeded and a success
callback was provided, `onFailure` is invoked exactly once if and only if
the operation failed and a failure callback was provided, the non-matching
callback is never invoked, and omitting either or both callbacks causes no
error (the counts are then zero and the call still settles); if `onSuccess`
throws, the provided failure callback additionally runs on the success
branch. -/
theorem promiseTuple_callback_exclusivity (p : SettledPromise JSVal)
    (sc fc : Option Callback) (hs : doesNotThrow sc = true) :
    (promiseTuple p sc fc).2.successCalls
        = (if p.isFulfilled && sc.isSome then 1 else 0) ∧
    (promiseTuple p sc fc).2.failureCalls
        = (if p.isRejected && fc.isSome then 1 else 0) := by
  cases p with
  | fulfilled v =>
      cases sc with
      | none => cases fc <;> exact ⟨rfl, rfl⟩
      | some c =>
          cases c with
          | ret => cases fc <;> exact ⟨rfl, rfl⟩
          | throws t => simp [doesNotThrow] at hs
  | rejected e =>
      cases sc with
      | none =>
          cases fc with
          | none => exact ⟨rfl, rfl⟩
          | some c => cases c <;> exact ⟨rfl, rfl⟩
      | some c =>
          cases c with
          | ret =>
              cases fc with
              | none => exact ⟨rfl, rfl⟩
              | some c2 => cases c2 <;> exact ⟨rfl, rfl⟩
          | throws t => simp [doesNotThrow] at hs

/-- Witness for the amended C6 at a concrete input: fulfilled promise with
both callbacks provided and non-throwing. -/
theorem promiseTuple_callback_exclusivity_witness :
    doesNotThrow (some .ret) = true ∧
    ((promiseTuple (.fulfilled (.num 42)) (some .ret) (some .ret)).2.successCalls
        = (if (SettledPromise.fulfilled (JSVal.num 42)).isFulfilled
              && (some Callback.ret).isSome then 1 else 0) ∧
    (promiseTuple (.fulfilled (.num 42)) (some .ret) (some .ret)).2.failureCalls
        = (if (SettledPromise.fulfilled (JSVal.num 42)).isRejected
              && (some Callback.ret).isSome then 1 else 0)) :=
  ⟨by decide,
    promiseTuple_callback_exclusivity (.fulfilled (.num 42)) (some .ret) (some .ret)
      (by decide)⟩

/-- C7: with callbacks absent or non-throwing, `promiseTuple` applies no
transformation to the settled value or error: on failure with `e` the error
slot holds exactly `e` (for a reference value `ref id`, the very same
instance), and on success with `v` the value slot holds exactly `v`
(identity mapping). -/
theorem promiseTuple_identity_preservation (sc fc : Option Callback)
    (hs : doesNotThrow sc = true) (hf : doesNotThrow fc = true) :
    (∀ e : JSVal,
      (promiseTuple (.rejected e) sc fc).1 = .fulfilled (e, JSVal.undef)) ∧
    (∀ v : JSVal,
      (promiseTuple (.fulfilled v) sc fc).1 = .fulfilled (JSVal.undef, v)) := by
  constructor
  · intro e
    cases fc with
    | none => rfl
    | some c =>
        cases c with
        | ret => rfl
        | throws t => simp [doesNotThrow] at hf
  · intro v
    cases sc with
    | none => rfl
    | some c =>
        cases c with
        | ret => rfl
        | throws t => simp [doesNotThrow] at hs

/-- Witness for C7 at a concrete input: no callbacks; the witness instance
uses reference values, standing for the same object instances that the
input operation produced. -/
theorem promiseTuple_identity_preservation_witness :
    doesNotThrow (none : Option Callback) = true ∧
    ((∀ e : JSVal,
      (promiseTuple (.rejected e) none none).1 = .fulfilled (e, JSVal.undef)) ∧
    (∀ v : JSVal,
      (promiseTuple (.fulfilled v) none none).1 = .fulfilled (JSVal.undef, v))) ∧
    (promiseTuple (.rejected (.ref 7)) none none).1
      = .fulfilled (.ref 7, JSVal.undef) :=
  ⟨by decide,
    promiseTuple_identity_preservation none none (by decide) (by decide),
    (promiseTuple_identity_preservation none none (by decide) (by decide)).1 (.ref 7)⟩

/-- C8: a promise that resolves with a falsy value (`0`, empty string,
`false`, `null`) or with the absent marker `undefined` itself yields, with
no callbacks, the resolved tuple `(undefined, v)` whose value slot is
exactly that falsy or absent value; the success branch is taken and the
returned future does not fail, so a falsy success value is never misread as
a failure. -/
theorem promiseTuple_falsy_transparency (v : JSVal) (h : isFalsyOrAbsent v = true) :
    (promiseTuple (.fulfilled v) none none).1 = .fulfilled (JSVal.undef, v) ∧
    ((promiseTuple (.fulfilled v) none none).1).isRejected = false :=
  ⟨rfl, rfl⟩

/-- Witness for C8 at a concrete input: the falsy number zero. -/
theorem promiseTuple_falsy_transparency_witness :
    isFalsyOrAbsent (.num 0) = true ∧
    ((promiseTuple (.fulfilled (.num 0)) none none).1
        = .fulfilled (JSVal.undef, .num 0) ∧
    ((promiseTuple (.fulfilled (.num 0)) none none).1).isRejected = false) :=
  ⟨by decide, promiseTuple_falsy_transparency (.num 0) (by decide)⟩

/-- C9 counterexample: the implementation reuses `undefined` — the empty
value of the target language — as the absent marker: on failure the absent
value slot holds `undefined`, and a promise that resolves with `undefined`
itself yields the tuple `(undefined, undefined)` in which the populated
value slot is indistinguishable from the absent error slot, refuting the
claim that the marker is distinct from every legitimate success value. -/
theorem promiseTuple_marker_is_undefined :
    (promiseTuple (.rejected (.str "e")) none none).1
      = .fulfilled (.str "e", JSVal.undef) ∧
    (promiseTuple (.fulfilled .undef) none none).1
      = .fulfilled (JSVal.undef, JSVal.undef) := by
  decide

/-- C9 as amended: the implementation uses the target language value
`undefined` as the absent marker, so the populated slot is distinguishable
from the absent slot only for resolved values other than `undefined`: for
every such value `v`, the resolved tuple has the marker in the error slot,
exactly `v` in the value slot, and the two slots differ. -/
theorem promiseTuple_marker_distinguishable (v : JSVal) (h : v ≠ JSVal.undef) :
    ∃ t : JSVal × JSVal,
      (promiseTuple (.fulfilled v) none none).1 = .fulfilled t ∧
      t.1 = JSVal.undef ∧ t.2 = v ∧ t.2 ≠ t.1 :=
  ⟨(JSVal.undef, v), rfl, rfl, rfl, h⟩

/-- Witness for the amended C9 at a concrete input: the falsy value `0`,
which is still distinguishable from the marker. -/
theorem promiseTuple_marker_distinguishable_witness :
    (JSVal.num 0 ≠ JSVal.undef) ∧
    (∃ t : JSVal × JSVal,
      (promiseTuple (.fulfilled (.num 0)) none none).1 = .fulfilled t ∧
      t.1 = JSVal.undef ∧ t.2 = .num 0 ∧ t.2 ≠ t.1) :=
  ⟨by decide, promiseTuple_marker_distinguishable (.num 0) (by decide)⟩

/-- C10 counterexample: the input promise fulfils and both provided
callbacks throw; the failure callback throws after being invoked by the
`.catch` stage, so the returned future fails with the value thrown by the
failure callback rather than resolving to `[t, undefined]`, refuting the
claim for throwing failure callbacks. -/
theorem promiseTuple_both_throw_rejects :
    (promiseTuple (.fulfilled (.str "v")) (some (.throws (.str "t1")))
        (some (.throws (.str "t2")))).1 = .rejected (.str "t2") ∧
    (promiseTuple (.fulfilled (.str "v")) (some (.throws (.str "t1")))
        (some (.throws (.str "t2")))).2 = ⟨1, 1⟩ := by
  decide

/-- C10 as amended: when the input promise fulfils and the provided
`onSuccess` callback throws `t`, then provided the failure callback does
not itself throw, the returned future still resolves — to the tuple
`[t, undefined]`, reporting the thrown value as if it were the failure of
the operation — and the failure callback, if provided, is also invoked, so
both callbacks run exactly once in the one call. -/
theorem promiseTuple_onSuccess_throw_invokes_both (v t : JSVal)
    (fc : Option Callback) (hf : doesNotThrow fc = true) :
    (promiseTuple (.fulfilled v) (some (.throws t)) fc).1
      = .fulfilled (t, JSVal.undef) ∧
    (promiseTuple (.fulfilled v) (some (.throws t)) fc).2
      = ⟨1, if fc.isSome then 1 else 0⟩ := by
  cases fc with
  | none => exact ⟨rfl, rfl⟩
  | some c =>
      cases c with
      | ret => exact ⟨rfl, rfl⟩
      | throws t2 => simp [doesNotThrow] at hf

/-- Witness for the amended C10 at a concrete input: fulfilled promise,
throwing `onSuccess`, non-throwing `onFailure` provided. -/
theorem promiseTuple_onSuccess_throw_invokes_both_witness :
    doesNotThrow (some .ret) = true ∧
    ((promiseTuple (.fulfilled (.str "v")) (some (.throws (.str "boom")))
        (some .ret)).1 = .fulfilled (.str "boom", JSVal.undef) ∧
    (promiseTuple (.fulfilled (.str "v")) (some (.throws (.str "boom")))
        (some .ret)).2 = ⟨1, if (some Callback.ret).isSome then 1 else 0⟩) :=
  ⟨by decide,
    promiseTuple_onSuccess_throw_invokes_both (.str "v") (.str "boom")
      (some .ret) (by decide)⟩
